import Mathlib

/-!
Verification of the Monte Carlo spectral-bundle simulation pipeline of the
`aei-grad-school` repository: a shallow embedding of the two driver scripts
`bin/model_veg_bundles.py` (PROSAIL canopy bundles) and
`projects/unsma/spec-soil-bundles.py` (6S at-sensor soil bundles), together
with theorems settling the spec claims about sampling validity, the
invocation argument wiring, and the shapes and layouts of the three output
artifacts (`_speclib.csv`, `_speclib.sli`, `_speclib.hdr`).

Real numbers produced by the Python `random` module are modelled over `ℚ`:
`random.uniform(a, b)` is `a + (b - a) * u` for a unit draw `u ∈ [0, 1]`,
and `random.gauss(mu, sigma)` is an arbitrary stream of draws (the scripts
only constrain it through rejection loops, which is what we verify).
The external radiative-transfer calls (`pyprosail.run`, Py6S
`run_landsat_oli` and friends) are opaque; the embedding is parameterised
by them as function arguments.
-/

/-! ## Random sampling, from `bin/model_veg_bundles.py` lines 56-136 -/

/-- Python `random.uniform(a, b)`: `a + (b - a) * u` with `u` the unit draw. -/
def pyUniform (a b u : ℚ) : ℚ := a + (b - a) * u

/-- The rejection loop pattern
`x = gauss(...); while x < lo or x > hi: x = gauss(...)` evaluated against a
stream of Gaussian draws: the loop returns the first draw inside `[lo, hi]`
and diverges (here: `none`) if the stream holds no such draw. -/
def rejectionSample (lo hi : ℚ) : List ℚ → Option ℚ
  | [] => none
  | x :: xs => if x < lo ∨ hi < x then rejectionSample lo hi xs else some x

/-- Chlorophyll sampler: `gauss(35, 30)` rejected outside `[5, 75]`
(`model_veg_bundles.py` lines 64-66). -/
def chloroSample (draws : List ℚ) : Option ℚ := rejectionSample 5 75 draws

/-- Carotenoid sampler: `gauss(7.5, 6.5)` rejected outside `[1.5, 15]`
(`model_veg_bundles.py` lines 71-73). -/
def carotenSample (draws : List ℚ) : Option ℚ :=
  rejectionSample (15 / 10) 15 draws

/-- Leaf-mass-per-area sampler: `gauss(0.012, 0.005)` rejected outside
`[0.0022, 0.0365]` (`model_veg_bundles.py` lines 86-88). -/
def lmaSample (draws : List ℚ) : Option ℚ :=
  rejectionSample (22 / 10000) (365 / 10000) draws

/-- Leaf-area-index sampler: `gauss(3, 2)` rejected outside `[0.1, 18]`
(`model_veg_bundles.py` lines 108-110). -/
def laiSample (draws : List ℚ) : Option ℚ :=
  rejectionSample (1 / 10) 18 draws

/-- Solar azimuth draw: `random.uniform(0, 360)` (line 133). -/
def sAzSample (u : ℚ) : ℚ := pyUniform 0 360 u

/-- Solar zenith draw: `random.uniform(20, 20)` (line 134). -/
def sZaSample (u : ℚ) : ℚ := pyUniform 20 20 u

/-- View azimuth: the constant `0` appended each iteration (line 135). -/
def vAzSample : ℚ := 0

/-- View zenith: the constant `0` appended each iteration (line 136). -/
def vZaSample : ℚ := 0

/-! ## Theorems for sampling claims -/

lemma rejectionSample_mem_interval (lo hi : ℚ) (draws : List ℚ) (v : ℚ)
    (hv : rejectionSample lo hi draws = some v) : lo ≤ v ∧ v ≤ hi := by
  induction draws with
  | nil => simp [rejectionSample] at hv
  | cons x xs ih =>
    rw [rejectionSample] at hv
    split at hv
    · exact ih hv
    · rename_i hx
      push_neg at hx
      injection hv with h
      subst h
      exact ⟨hx.1, hx.2⟩

/-- C3: every value the rejection loops accept lies inside the declared
validity interval — chlorophyll in `[5, 75]`, carotenoids in `[1.5, 15]`,
leaf mass per area in `[0.0022, 0.0365]`, leaf area index in `[0.1, 18]` —
for every stream of Gaussian draws. -/
theorem accepted_samples_in_valid_intervals
    (dc dk dm dl : List ℚ) (c k m l : ℚ)
    (hc : chloroSample dc = some c) (hk : carotenSample dk = some k)
    (hm : lmaSample dm = some m) (hl : laiSample dl = some l) :
    (5 ≤ c ∧ c ≤ 75) ∧ ((15 / 10 : ℚ) ≤ k ∧ k ≤ 15) ∧
    ((22 / 10000 : ℚ) ≤ m ∧ m ≤ 365 / 10000) ∧ ((1 / 10 : ℚ) ≤ l ∧ l ≤ 18) :=
  ⟨rejectionSample_mem_interval _ _ _ _ hc,
   rejectionSample_mem_interval _ _ _ _ hk,
   rejectionSample_mem_interval _ _ _ _ hm,
   rejectionSample_mem_interval _ _ _ _ hl⟩

/-- C3 witness: concrete draw streams, each accepting its first in-range
draw after rejecting an out-of-range one. -/
theorem accepted_samples_in_valid_intervals_witness :
    ((5: ℚ) ≤ 50 ∧ (50 : ℚ) ≤ 75) ∧ ((15 / 10 : ℚ) ≤ 2 ∧ (2 : ℚ) ≤ 15) ∧
    ((22 / 10000 : ℚ) ≤ 1 / 100 ∧ (1 / 100 : ℚ) ≤ 365 / 10000) ∧
    ((1 / 10 : ℚ) ≤ 3 ∧ (3 : ℚ) ≤ 18) :=
  accepted_samples_in_valid_intervals
    [100, 50] [20, 2] [1, 1 / 100] [0, 3] 50 2 (1 / 100) 3
    (by norm_num [chloroSample, rejectionSample])
    (by norm_num [carotenSample, rejectionSample])
    (by norm_num [lmaSample, rejectionSample])
    (by norm_num [laiSample, rejectionSample])

/-- C10: in the vegetation-bundle script the solar zenith draw is the
degenerate `uniform(20, 20)` and always returns exactly `20`, the view
azimuth and view zenith are the constant `0`, and among the geometry
parameters only the solar azimuth varies (two unit draws giving two
different azimuths). -/
theorem geometry_only_solar_azimuth_varies :
    (∀ u : ℚ, sZaSample u = 20) ∧ vAzSample = 0 ∧ vZaSample = 0 ∧
    (0 : ℚ) ≤ 0 ∧ (0 : ℚ) ≤ 1 ∧ (1 : ℚ) ≤ 1 ∧
    sAzSample 0 ≠ sAzSample 1 := by
  refine ⟨fun u => ?_, rfl, rfl, le_refl 0, by norm_num, le_refl 1,
    by norm_num [sAzSample, pyUniform]⟩
  simp [sZaSample, pyUniform]

/-! ## Vegetation-bundle driver, from `bin/model_veg_bundles.py` lines 138-194 -/

/-- The sampled per-bundle parameter lists built by the sampling loop
(lines 40-136); one entry per bundle in each list. -/
structure VegSamples where
  N : List ℚ
  chloro : List ℚ
  caroten : List ℚ
  brown : List ℚ
  EWT : List ℚ
  LMA : List ℚ
  soil_reflectance : List ℚ
  LAI : List ℚ
  hot_spot : List ℚ
  LAD_inclination : List ℚ
  LAD_bimodality : List ℚ
  s_az : List ℚ
  s_za : List ℚ
  v_az : List ℚ
  v_za : List ℚ

/-- The positional argument tuple handed to `pyprosail.run` (lines 164-168). -/
structure ProsailCall where
  n : ℚ
  chloro : ℚ
  caroten : ℚ
  brown : ℚ
  ewt : ℚ
  lma : ℚ
  soil_reflectance : ℚ
  lai : ℚ
  hot_spot : ℚ
  s_za : ℚ
  s_az : ℚ
  v_za : ℚ
  v_az : ℚ
  lidf : ℚ × ℚ
deriving DecidableEq

/-- The arguments the script passes to `pyprosail.run` for bundle `j`
(lines 161-168).  The leaf and canopy parameters are indexed by the bundle
loop variable `j`, but the four geometry angles are indexed by `i` — the
loop variable of the preceding `for i in range(n_bundles)` loop, which is
left holding its final value `n_bundles - 1`. -/
def vegProsailCall (p : VegSamples) (n_bundles j : ℕ) : ProsailCall :=
  { n := p.N.getD j 0
    chloro := p.chloro.getD j 0
    caroten := p.caroten.getD j 0
    brown := p.brown.getD j 0
    ewt := p.EWT.getD j 0
    lma := p.LMA.getD j 0
    soil_reflectance := p.soil_reflectance.getD j 0
    lai := p.LAI.getD j 0
    hot_spot := p.hot_spot.getD j 0
    s_za := p.s_za.getD (n_bundles - 1) 0
    s_az := p.s_az.getD (n_bundles - 1) 0
    v_za := p.v_za.getD (n_bundles - 1) 0
    v_az := p.v_az.getD (n_bundles - 1) 0
    lidf := (p.LAD_inclination.getD j 0, p.LAD_bimodality.getD j 0) }

/-- `output_array` after the simulation loop and the wavelength-column fill
(lines 158, 171, 174): shape `nb × (n_bundles + 1)`; `spectra j w` is the
`(wavelength, reflectance)` pair returned by the model for bundle `j` at
band `w`.  Column `0` holds the wavelength axis of `spectrum` — the loop
variable still bound to the *last* bundle's result; column `j + 1` holds
bundle `j`'s reflectances.  Entries outside the array shape are the `0`
of `np.zeros`. -/
def vegOutputArray (nb n_bundles : ℕ) (spectra : ℕ → ℕ → ℚ × ℚ)
    (w c : ℕ) : ℚ :=
  if w < nb ∧ c < n_bundles + 1 then
    if c = 0 then (spectra (n_bundles - 1) w).1 else (spectra (c - 1) w).2
  else 0

/-- Rows of the `_speclib.csv` text artifact:
`np.savetxt(output_csv[0], output_array.transpose(), ...)` (line 175)
writes one text row per row of the *transposed* array, so the CSV has
`n_bundles + 1` rows (wavelength row first, then one row per spectrum) of
`nb` values each. -/
def vegCsv (nb n_bundles : ℕ) (spectra : ℕ → ℕ → ℚ × ℚ) : List (List ℚ) :=
  (List.range (n_bundles + 1)).map fun r =>
    (List.range nb).map fun w => vegOutputArray nb n_bundles spectra w r

/-- Value sequence of the `_speclib.sli` binary artifact:
`output_array[:,1:].transpose().tofile(f)` (lines 178-179) flattens the
`n_bundles × nb` transposed spectra block in C (row-major) order. -/
def vegSli (nb n_bundles : ℕ) (spectra : ℕ → ℕ → ℚ × ℚ) : List ℚ :=
  ((List.range n_bundles).map fun j =>
    (List.range nb).map fun w =>
      vegOutputArray nb n_bundles spectra w (j + 1)).flatten

/-- The spectra names list (lines 150-151): `'veg bundle ' + str(i+1)`. -/
def vegSpectraNames (n_bundles : ℕ) : List String :=
  (List.range n_bundles).map fun i => "veg bundle " ++ toString (i + 1)

/-- The fields of the ENVI header dictionary written next to the `.sli`
file by both scripts. -/
structure EnviHeader where
  samples : ℕ
  lines : ℕ
  bands : ℕ
  data_type : ℕ
  header_offset : ℕ
  interleave : String
  byte_order : ℕ
  sensor_type : String
  spectra_names : List String
  wavelength_units : String
  wavelength : List ℚ
deriving DecidableEq

/-- The `_speclib.hdr` metadata of the vegetation script (lines 181-193). -/
def vegHeader (nb n_bundles : ℕ) (spectra : ℕ → ℕ → ℚ × ℚ) : EnviHeader :=
  { samples := nb
    lines := n_bundles
    bands := 1
    data_type := 5
    header_offset := 0
    interleave := "bsq"
    byte_order := 0
    sensor_type := "prosail"
    spectra_names := vegSpectraNames n_bundles
    wavelength_units := "micrometers"
    wavelength :=
      (List.range nb).map fun w => vegOutputArray nb n_bundles spectra w 0 }

/-- The three artifacts the vegetation script writes after its loop. -/
structure VegArtifacts where
  csv : List (List ℚ)
  sli : List ℚ
  hdr : EnviHeader

/-- Totalisation of a fallible model: the value used where the script's
code is only reached when every invocation has succeeded. -/
def vegSpectra (prosail : ProsailCall → Option (ℕ → ℚ × ℚ))
    (p : VegSamples) (n_bundles j : ℕ) : ℕ → ℚ × ℚ :=
  (prosail (vegProsailCall p n_bundles j)).getD fun _ => (0, 0)

/-- The whole vegetation driver (lines 156-194): run `pyprosail.run` for
each bundle in order; an exception in any invocation (`none`) aborts the
script before any artifact is written; otherwise the CSV, SLI and header
artifacts are produced from the filled `output_array` after the loop. -/
def vegRun (nb n_bundles : ℕ) (prosail : ProsailCall → Option (ℕ → ℚ × ℚ))
    (p : VegSamples) : Option VegArtifacts :=
  if (List.range n_bundles).all
      (fun j => (prosail (vegProsailCall p n_bundles j)).isSome) then
    some { csv := vegCsv nb n_bundles (vegSpectra prosail p n_bundles)
           sli := vegSli nb n_bundles (vegSpectra prosail p n_bundles)
           hdr := vegHeader nb n_bundles (vegSpectra prosail p n_bundles) }
  else none

/-! ## Soil-bundle driver, from `projects/unsma/spec-soil-bundles.py` -/

/-- The sensor name / band configuration `if/elif` chain (lines 135-202):
returns `(num_bands, good_bands)` for a supported sensor and the
`OSError('Unsupported sensor configuration')` message otherwise.  `wl_len`
is `len(wl)`, used only by the `custom` branch. -/
def sensorConfig (sensor : String) (wl_len : ℕ) :
    Except String (ℕ × List ℕ) :=
  if sensor = "custom" then .ok (wl_len, List.range wl_len)
  else if sensor = "ali" then .ok (7, List.range 7)
  else if sensor = "aster" then .ok (9, List.range 9)
  else if sensor = "er2_mas" then .ok (7, List.range 7)
  else if sensor = "gli" then .ok (30, List.range 30)
  else if sensor = "landsat_etm" then .ok (6, List.range 6)
  else if sensor = "landsat_mss" then .ok (4, List.range 4)
  else if sensor = "landsat_oli" then
    .ok (10, (List.range 6).map (· + 1))
  else if sensor = "landsat_tm" then .ok (6, List.range 6)
  else if sensor = "meris" then .ok (16, List.range 16)
  else if sensor = "modis" then .ok (8, List.range 8)
  else if sensor = "polder" then .ok (8, List.range 8)
  else if sensor = "spot_hrv" then .ok (4, List.range 4)
  else if sensor = "spot_vgt" then .ok (4, List.range 4)
  else if sensor = "vnir" then .ok (200, List.range 200)
  else if sensor = "whole_range" then
    .ok (380, (List.range 210).map (· + 20))
  else .error "Unsupported sensor configuration"

/-- The sensor names accepted by the `if/elif` chain. -/
def supportedSensors : List String :=
  ["custom", "ali", "aster", "er2_mas", "gli", "landsat_etm", "landsat_mss",
   "landsat_oli", "landsat_tm", "meris", "modis", "polder", "spot_hrv",
   "spot_vgt", "vnir", "whole_range"]

/-- Python `'%03d' % n`: decimal digits left-padded with zeros to width 3. -/
def pad3 (n : ℕ) : String :=
  if n < 10 then "00" ++ toString n
  else if n < 100 then "0" ++ toString n
  else toString n

/-- The spectra names list of the soil script (lines 222-223):
`'Soil bundle %03d' % (i+1)` for `i in range(n_bundles)` — one name per
soil bundle, not one per (atmosphere, bundle) spectrum. -/
def soilSpectraNames (n_bundles : ℕ) : List String :=
  (List.range n_bundles).map fun i => "Soil bundle " ++ pad3 (i + 1)

/-- `output_array` of the soil script after both loops (lines 230, 272,
279): shape `nb × (n_bundles * n_atmospheres + 1)` with `nb` the number of
good bands.  `smodel i j` is the `(wavelengths, results)` pair of the 6S
invocation for atmosphere `i` and bundle `j`; the script keeps
`results[good_bands]` in column `i * n_bundles + j + 1` and puts
`wavelengths[good_bands]` of the *last* invocation in column `0`. -/
def soilOutputArray (gb : List ℕ) (n_a n_b : ℕ)
    (smodel : ℕ → ℕ → (ℕ → ℚ) × (ℕ → ℚ)) (w c : ℕ) : ℚ :=
  if w < gb.length ∧ c < n_a * n_b + 1 then
    if c = 0 then (smodel (n_a - 1) (n_b - 1)).1 (gb.getD w 0)
    else (smodel ((c - 1) / n_b) ((c - 1) % n_b)).2 (gb.getD w 0)
  else 0

/-- Rows of the soil `_speclib.csv`:
`np.savetxt(output_csv[0], output_array.transpose(), ...)` (line 280). -/
def soilCsv (gb : List ℕ) (n_a n_b : ℕ)
    (smodel : ℕ → ℕ → (ℕ → ℚ) × (ℕ → ℚ)) : List (List ℚ) :=
  (List.range (n_a * n_b + 1)).map fun r =>
    (List.range gb.length).map fun w => soilOutputArray gb n_a n_b smodel w r

/-- Value sequence of the soil `_speclib.sli`:
`output_array[:,1:].transpose().tofile(f)` (lines 283-284). -/
def soilSli (gb : List ℕ) (n_a n_b : ℕ)
    (smodel : ℕ → ℕ → (ℕ → ℚ) × (ℕ → ℚ)) : List ℚ :=
  ((List.range (n_a * n_b)).map fun c =>
    (List.range gb.length).map fun w =>
      soilOutputArray gb n_a n_b smodel w (c + 1)).flatten

/-- The soil `_speclib.hdr` metadata (lines 286-298). -/
def soilHeader (sensor : String) (gb : List ℕ) (n_a n_b : ℕ)
    (smodel : ℕ → ℕ → (ℕ → ℚ) × (ℕ → ℚ)) : EnviHeader :=
  { samples := gb.length
    lines := n_b * n_a
    bands := 1
    data_type := 5
    header_offset := 0
    interleave := "bsq"
    byte_order := 0
    sensor_type := sensor
    spectra_names := soilSpectraNames n_b
    wavelength_units := "micrometers"
    wavelength := gb.map fun b => (smodel (n_a - 1) (n_b - 1)).1 b }

/-- The three spectral-library artifacts the soil script writes after its
loops (the per-atmosphere `.sixs` provenance files are separate and out of
scope of the claims). -/
structure SoilArtifacts where
  csv : List (List ℚ)
  sli : List ℚ
  hdr : EnviHeader

/-- Totalisation of the fallible 6S invocation. -/
def soilSpectra (smodel : ℕ → ℕ → Option ((ℕ → ℚ) × (ℕ → ℚ)))
    (i j : ℕ) : (ℕ → ℚ) × (ℕ → ℚ) :=
  (smodel i j).getD (fun _ => 0, fun _ => 0)

/-- The whole soil driver: resolve the sensor configuration first (an
unsupported name raises before any simulation), run the
atmosphere × bundle loop (an exception in any invocation aborts before any
spectral-library artifact is written), then export the three artifacts. -/
def soilRun (sensor : String) (wl_len n_a n_b : ℕ)
    (smodel : ℕ → ℕ → Option ((ℕ → ℚ) × (ℕ → ℚ))) :
    Except String SoilArtifacts :=
  match sensorConfig sensor wl_len with
  | .error e => .error e
  | .ok cfg =>
    if (List.range n_a).all (fun i =>
        (List.range n_b).all fun j => (smodel i j).isSome) then
      .ok { csv := soilCsv cfg.2 n_a n_b (soilSpectra smodel)
            sli := soilSli cfg.2 n_a n_b (soilSpectra smodel)
            hdr := soilHeader sensor cfg.2 n_a n_b (soilSpectra smodel) }
    else .error "SimulationError"

/-! ## Soil-curve preprocessing (lines 248-260 of the soil script) -/

/-- A parsed soil reflectance file: a wavelength unit tag and one row per
band holding `(band center, reflectance, water-band flag)`. -/
structure SoilFile where
  band_unit : String
  bands : List (ℚ × ℚ × Bool)

/-- Modelled from the spec: `aei.readJFSC` lives in the external `aei`
package, not under `src/`.  Per §4.3 it parses the delimited file with its
wavelength unit tag and "fails with a FormatError if the unit tag is
unrecognized or the file cannot be parsed"; the recognized tags are the
nanometer tag the script tests for and the micrometer tag the 6S model
expects. -/
def readJFSC (f : SoilFile) : Except String SoilFile :=
  if f.band_unit = "Nanometers" ∨ f.band_unit = "Micrometers" then .ok f
  else .error "FormatError"

/-- Modelled from the spec: `soil.remove_water_bands()` (external `aei`
package) removes the flagged "bad" water-absorption bands. -/
def removeWaterBands (f : SoilFile) : SoilFile :=
  { f with bands := f.bands.filter fun b => !b.2.2 }

/-- The per-bundle soil preprocessing of the script (lines 249-259): read
the file, remove water bands, divide band centers by 1000 when the unit
tag is `Nanometers`, and zip centers with the first spectrum into the
`(wavelength, reflectance)` array handed to `GroundReflectance`. -/
def soilPreprocess (f : SoilFile) : Except String (List (ℚ × ℚ)) :=
  match readJFSC f with
  | .error e => .error e
  | .ok soil =>
    let kept := (removeWaterBands soil).bands
    let centers :=
      if soil.band_unit = "Nanometers" then kept.map fun b => b.1 / 1000
      else kept.map fun b => b.1
    .ok (centers.zip (kept.map fun b => b.2.1))

/-! ## Concrete instances used by witnesses and counterexamples -/

/-- A model whose reflectances are pairwise distinct across bundles and
bands: bundle `j`, band `w` gives wavelength `100 j + w` and reflectance
`10 j + w + 1`. -/
def tagSpectra (j w : ℕ) : ℚ × ℚ :=
  ((100 * j + w : ℕ), ((10 * j + w + 1 : ℕ) : ℚ))

/-- The all-zero model. -/
def zeroSpectra (_ _ : ℕ) : ℚ × ℚ := (0, 0)

/-- The all-zero 6S model. -/
def zeroSoilSpectra (_ _ : ℕ) : (ℕ → ℚ) × (ℕ → ℚ) :=
  (fun _ => 0, fun _ => 0)

/-- A vegetation sample batch for two bundles whose bundles differ only in
solar azimuth: bundle 0 has azimuth 0, bundle 1 has azimuth 180. -/
def twoBundleSamples : VegSamples :=
  { N := [2, 2], chloro := [35, 35], caroten := [7, 7], brown := [0, 0]
    EWT := [1 / 100, 1 / 100], LMA := [1 / 100, 1 / 100]
    soil_reflectance := [1 / 2, 1 / 2], LAI := [3, 3]
    hot_spot := [1 / 10, 1 / 10], LAD_inclination := [0, 0]
    LAD_bimodality := [0, 0], s_az := [0, 180], s_za := [20, 20]
    v_az := [0, 0], v_za := [0, 0] }

/-- A soil file tagged in nanometers with one good and one water band. -/
def nanoSoilFile : SoilFile :=
  { band_unit := "Nanometers"
    bands := [(1000, (1 / 2, false)), (1900, (1 / 4, true))] }

/-- A soil file with an unrecognized wavelength unit tag. -/
def badUnitSoilFile : SoilFile :=
  { band_unit := "wavenumbers", bands := [(1000, (1 / 2, false))] }

/-! ## Helper lemmas on list indexing -/

lemma range_map_getD {α : Type} (f : ℕ → α) (d : α) (n r : ℕ) (hr : r < n) :
    ((List.range n).map f).getD r d = f r := by
  rw [List.getD_eq_getElem _ _ (by simpa using hr)]
  simp

lemma flatten_length_const (rows : List (List ℚ)) (L : ℕ)
    (h : ∀ r ∈ rows, r.length = L) :
    rows.flatten.length = rows.length * L := by
  induction rows with
  | nil => simp
  | cons r rs ih =>
    simp only [List.flatten_cons, List.length_append, List.length_cons]
    rw [h r (List.mem_cons_self r rs), ih fun x hx => h x (List.mem_cons_of_mem r hx)]
    ring

lemma flatten_getD_const (rows : List (List ℚ)) (L : ℕ)
    (h : ∀ r ∈ rows, r.length = L) (j w : ℕ) (hj : j < rows.length)
    (hw : w < L) :
    rows.flatten.getD (j * L + w) 0 = (rows.getD j []).getD w 0 := by
  induction rows generalizing j with
  | nil => simp at hj
  | cons r rs ih =>
    cases j with
    | zero =>
      simp only [List.flatten_cons, Nat.zero_mul, Nat.zero_add, List.getD_cons_zero]
      exact List.getD_append _ _ _ _ (by rw [h r (List.mem_cons_self r rs)]; exact hw)
    | succ j =>
      have hrl : r.length = L := h r (List.mem_cons_self r rs)
      have hle : r.length ≤ (j + 1) * L + w := by
        rw [hrl]; nlinarith [Nat.zero_le (j * L), Nat.zero_le w]
      simp only [List.flatten_cons, List.getD_cons_succ]
      rw [List.getD_append_right _ _ _ _ hle, hrl]
      have : (j + 1) * L + w - L = j * L + w := by ring_nf; omega
      rw [this]
      exact ih (fun x hx => h x (List.mem_cons_of_mem r hx)) j
        (by simpa using hj)

/-! ## Theorems for the CSV artifact (C1) -/

/-- C1 counterexample: with `n_bundles = 3` and a fixed band count of 5,
the CSV written by `np.savetxt(output_array.transpose())` has 4 rows, not
the 5 rows (one per wavelength sample) the claim states. -/
theorem csv_five_rows_counterexample :
    (vegCsv 5 3 zeroSpectra).length = 4 ∧
    (vegCsv 5 3 zeroSpectra).length ≠ 5 := by
  constructor <;> simp [vegCsv]

/-- C1 amended: the CSV is the transpose of the claimed layout — it has
`n_bundles + 1` rows (the wavelength axis first, then one row per
spectrum) and one column per wavelength sample; row `j + 1` column `w`
holds bundle `j`'s reflectance at band `w`, and the soil-script CSV
likewise has `n_atmospheres * n_bundles + 1` rows of `len(good_bands)`
values. -/
theorem csv_transposed_layout (nb n : ℕ) (spectra : ℕ → ℕ → ℚ × ℚ)
    (row : List ℚ) (hrow : row ∈ vegCsv nb n spectra) (j w : ℕ)
    (hj : j < n) (hw : w < nb) (gb : List ℕ) (n_a n_b : ℕ)
    (smodel : ℕ → ℕ → (ℕ → ℚ) × (ℕ → ℚ)) (srow : List ℚ)
    (hsrow : srow ∈ soilCsv gb n_a n_b smodel) :
    (vegCsv nb n spectra).length = n + 1 ∧ row.length = nb ∧
    ((vegCsv nb n spectra).getD 0 []).getD w 0 = (spectra (n - 1) w).1 ∧
    ((vegCsv nb n spectra).getD (j + 1) []).getD w 0 = (spectra j w).2 ∧
    (soilCsv gb n_a n_b smodel).length = n_a * n_b + 1 ∧
    srow.length = gb.length := by
  refine ⟨by simp [vegCsv], ?_, ?_, ?_, by simp [soilCsv], ?_⟩
  · obtain ⟨r, _, rfl⟩ := List.mem_map.mp hrow
    simp
  · rw [vegCsv, range_map_getD _ _ _ _ (Nat.succ_pos n),
      range_map_getD _ _ _ _ hw, vegOutputArray, if_pos ⟨hw, Nat.succ_pos n⟩,
      if_pos rfl]
  · rw [vegCsv, range_map_getD _ _ _ _ (by omega),
      range_map_getD _ _ _ _ hw, vegOutputArray, if_pos ⟨hw, by omega⟩,
      if_neg (Nat.succ_ne_zero j)]
    simp
  · obtain ⟨r, _, rfl⟩ := List.mem_map.mp hsrow
    simp

/-- C1 amended, witness: 5 bands, 3 bundles, the tagged model. -/
theorem csv_transposed_layout_witness :
    (vegCsv 5 3 tagSpectra).length = 3 + 1 ∧
    ((List.range 5).map fun w => vegOutputArray 5 3 tagSpectra w 0).length
      = 5 ∧
    ((vegCsv 5 3 tagSpectra).getD 0 []).getD 2 0 = (tagSpectra (3 - 1) 2).1 ∧
    ((vegCsv 5 3 tagSpectra).getD (1 + 1) []).getD 2 0 = (tagSpectra 1 2).2 ∧
    (soilCsv [1, 2] 2 3 zeroSoilSpectra).length = 2 * 3 + 1 ∧
    ((List.range 2).map fun w =>
      soilOutputArray [1, 2] 2 3 zeroSoilSpectra w 0).length = [1, 2].length :=
  csv_transposed_layout 5 3 tagSpectra _
    (List.mem_map.mpr ⟨0, List.mem_range.mpr (by norm_num), rfl⟩)
    1 2 (by norm_num) (by norm_num) [1, 2] 2 3 zeroSoilSpectra _
    (List.mem_map.mpr ⟨0, List.mem_range.mpr (by norm_num), rfl⟩)

/-! ## Theorems for the SLI binary artifact (C4) -/

/-- The layout the spec sentence describes, built from the same
`output_array`: all spectra's values for band 1 first, then all spectra's
values for band 2, and so on. -/
def sliBandMajor (nb n_bundles : ℕ) (spectra : ℕ → ℕ → ℚ × ℚ) : List ℚ :=
  ((List.range nb).map fun w =>
    (List.range n_bundles).map fun j =>
      vegOutputArray nb n_bundles spectra w (j + 1)).flatten

/-- C4 counterexample: with 2 bands and 2 bundles of pairwise distinct
reflectances, the byte sequence `tofile` writes is not the band-major
sequence the claim describes. -/
theorem sli_band_major_counterexample :
    vegSli 2 2 tagSpectra ≠ sliBandMajor 2 2 tagSpectra := by
  norm_num [vegSli, sliBandMajor, vegOutputArray, tagSpectra,
    List.range_succ]

/-- C4 amended: the `.sli` stream is spectrum-sequential, not
band-sequential over wavelengths — spectrum `j` occupies the contiguous
block starting at `j * nb`, with its bands in order (position
`j * nb + w` holds bundle `j`'s reflectance at band `w`); the soil
script's stream likewise holds spectrum `c` (atmosphere `c / n_bundles`,
bundle `c % n_bundles`) contiguously from `c * len(good_bands)`. -/
theorem sli_spectrum_sequential (nb n : ℕ) (spectra : ℕ → ℕ → ℚ × ℚ)
    (j w : ℕ) (hj : j < n) (hw : w < nb) (gb : List ℕ) (n_a n_b : ℕ)
    (smodel : ℕ → ℕ → (ℕ → ℚ) × (ℕ → ℚ)) (c w2 : ℕ) (hc : c < n_a * n_b)
    (hw2 : w2 < gb.length) :
    (vegSli nb n spectra).length = n * nb ∧
    (vegSli nb n spectra).getD (j * nb + w) 0 = (spectra j w).2 ∧
    (soilSli gb n_a n_b smodel).length = n_a * n_b * gb.length ∧
    (soilSli gb n_a n_b smodel).getD (c * gb.length + w2) 0 =
      (smodel (c / n_b) (c % n_b)).2 (gb.getD w2 0) := by
  refine ⟨?_, ?_, ?_, ?_⟩
  · rw [vegSli, flatten_length_const _ nb fun r hr => ?_]
    · simp
    · obtain ⟨x, _, rfl⟩ := List.mem_map.mp hr
      simp
  · rw [vegSli, flatten_getD_const _ nb (fun r hr => ?_) j w (by simpa using hj) hw,
      range_map_getD _ _ _ _ hj, range_map_getD _ _ _ _ hw, vegOutputArray,
      if_pos ⟨hw, by omega⟩, if_neg (Nat.succ_ne_zero j)]
    · simp
    · obtain ⟨x, _, rfl⟩ := List.mem_map.mp hr
      simp
  · rw [soilSli, flatten_length_const _ gb.length fun r hr => ?_]
    · simp
    · obtain ⟨x, _, rfl⟩ := List.mem_map.mp hr
      simp
  · rw [soilSli,
      flatten_getD_const _ gb.length (fun r hr => ?_) c w2 (by simpa using hc) hw2,
      range_map_getD _ _ _ _ hc, range_map_getD _ _ _ _ hw2, soilOutputArray,
      if_pos ⟨hw2, by omega⟩, if_neg (Nat.succ_ne_zero c)]
    · simp
    · obtain ⟨x, _, rfl⟩ := List.mem_map.mp hr
      simp

/-- C4 amended, witness: 2 bands, 2 bundles, the tagged model — position
`1 * 2 + 1` of the stream holds bundle 1's band-1 reflectance. -/
theorem sli_spectrum_sequential_witness :
    (vegSli 2 2 tagSpectra).length = 2 * 2 ∧
    (vegSli 2 2 tagSpectra).getD (1 * 2 + 1) 0 = (tagSpectra 1 1).2 ∧
    (soilSli [1, 2] 2 3 zeroSoilSpectra).length = 2 * 3 * [1, 2].length ∧
    (soilSli [1, 2] 2 3 zeroSoilSpectra).getD (4 * [1, 2].length + 1) 0 =
      (zeroSoilSpectra (4 / 3) (4 % 3)).2 ([1, 2].getD 1 0) :=
  sli_spectrum_sequential 2 2 tagSpectra 1 1 (by norm_num) (by norm_num)
    [1, 2] 2 3 zeroSoilSpectra 4 1 (by norm_num) (by norm_num)

/-! ## Theorem for the geometry indexing bug (C2) -/

/-- C2: the vegetation script invokes `pyprosail.run` with
`s_za[i], s_az[i], v_za[i], v_az[i]` where `i` is the stale loop variable
of the preceding naming loop (stuck at `n_bundles - 1`), not the bundle
loop variable `j` — so bundle 0 is simulated with bundle 1's solar
azimuth (180), not its own (0). -/
theorem stale_geometry_index_bug :
    (vegProsailCall twoBundleSamples 2 0).s_az = 180 ∧
    twoBundleSamples.s_az.getD 0 0 = 0 ∧
    (vegProsailCall twoBundleSamples 2 0).s_az ≠
      twoBundleSamples.s_az.getD 0 0 := by
  have h1 : (vegProsailCall twoBundleSamples 2 0).s_az = 180 := rfl
  have h2 : twoBundleSamples.s_az.getD 0 0 = 0 := rfl
  exact ⟨h1, h2, by rw [h1, h2]; norm_num⟩

/-! ## Theorems for the header artifact (C5, C6) -/

/-- C5 counterexample: with the script's constants (`n_atmospheres = 5`,
`n_bundles = 25`) the soil header lists 25 spectra names while declaring
125 lines — not one name per spectrum written to the library. -/
theorem spectra_names_count_counterexample :
    (soilHeader "landsat_oli" ((List.range 6).map (· + 1)) 5 25
      zeroSoilSpectra).spectra_names.length = 25 ∧
    (soilHeader "landsat_oli" ((List.range 6).map (· + 1)) 5 25
      zeroSoilSpectra).lines = 125 ∧ (25 : ℕ) ≠ 125 := by
  refine ⟨?_, rfl, by norm_num⟩
  simp [soilHeader, soilSpectraNames]

/-- C5 amended: the vegetation header's names list has exactly one name
per spectrum (its length equals the declared line count), but the soil
header's names list has one name per soil *bundle* — `n_bundles` entries
against `n_bundles * n_atmospheres` declared lines, matching only when
`n_atmospheres = 1`. -/
theorem spectra_names_lengths (nb n : ℕ) (spectra : ℕ → ℕ → ℚ × ℚ)
    (sensor : String) (gb : List ℕ) (n_a n_b : ℕ)
    (smodel : ℕ → ℕ → (ℕ → ℚ) × (ℕ → ℚ)) :
    (vegHeader nb n spectra).spectra_names.length =
      (vegHeader nb n spectra).lines ∧
    (soilHeader sensor gb n_a n_b smodel).spectra_names.length = n_b ∧
    (soilHeader sensor gb n_a n_b smodel).lines = n_b * n_a := by
  refine ⟨?_, ?_, rfl⟩ <;>
    simp [vegHeader, soilHeader, vegSpectraNames, soilSpectraNames]

/-- C6: both headers declare `samples` equal to the per-spectrum band
count, `lines` equal to the number of simulated spectra (`n_bundles` for
the vegetation script, `n_bundles * n_atmospheres` for the soil script),
`bands = 1`, header offset 0 and interleave `bsq`; concretely with 5 bands
and 3 bundles the vegetation header declares `samples=5, lines=3,
bands=1`. -/
theorem header_dimension_fields (nb n : ℕ) (spectra : ℕ → ℕ → ℚ × ℚ)
    (sensor : String) (gb : List ℕ) (n_a n_b : ℕ)
    (smodel : ℕ → ℕ → (ℕ → ℚ) × (ℕ → ℚ)) :
    (vegHeader nb n spectra).samples = nb ∧
    (vegHeader nb n spectra).lines = n ∧
    (vegHeader nb n spectra).bands = 1 ∧
    (vegHeader nb n spectra).header_offset = 0 ∧
    (vegHeader nb n spectra).interleave = "bsq" ∧
    (soilHeader sensor gb n_a n_b smodel).samples = gb.length ∧
    (soilHeader sensor gb n_a n_b smodel).lines = n_b * n_a ∧
    (soilHeader sensor gb n_a n_b smodel).bands = 1 ∧
    (soilHeader sensor gb n_a n_b smodel).header_offset = 0 ∧
    (soilHeader sensor gb n_a n_b smodel).interleave = "bsq" ∧
    (vegHeader 5 3 zeroSpectra).samples = 5 ∧
    (vegHeader 5 3 zeroSpectra).lines = 3 ∧
    (vegHeader 5 3 zeroSpectra).bands = 1 :=
  ⟨rfl, rfl, rfl, rfl, rfl, rfl, rfl, rfl, rfl, rfl, rfl, rfl, rfl⟩

/-! ## Theorem for the unsupported-sensor path (C7) -/

/-- C7: for every sensor name outside the enumerated supported set the
soil script raises `OSError('Unsupported sensor configuration')` in the
configuration chain, before the simulation loop — so for every model, the
run produces that error and no spectral-library artifact. -/
theorem unsupported_sensor_aborts (sensor : String)
    (h : sensor ∉ supportedSensors) (wl_len n_a n_b : ℕ)
    (smodel : ℕ → ℕ → Option ((ℕ → ℚ) × (ℕ → ℚ))) :
    sensorConfig sensor wl_len = .error "Unsupported sensor configuration" ∧
    soilRun sensor wl_len n_a n_b smodel =
      .error "Unsupported sensor configuration" := by
  have hcfg : sensorConfig sensor wl_len =
      .error "Unsupported sensor configuration" := by
    simp only [supportedSensors, List.mem_cons, List.not_mem_nil, or_false,
      not_or] at h
    obtain ⟨h1, h2, h3, h4, h5, h6, h7, h8, h9, h10, h11, h12, h13, h14,
      h15, h16⟩ := h
    simp [sensorConfig, h1, h2, h3, h4, h5, h6, h7, h8, h9, h10, h11, h12,
      h13, h14, h15, h16]
  refine ⟨hcfg, ?_⟩
  rw [soilRun.eq_def, hcfg]

/-- C7 witness: the Sentinel-2 name is not in the chain. -/
theorem unsupported_sensor_aborts_witness :
    sensorConfig "sentinel2" 210 =
      .error "Unsupported sensor configuration" ∧
    soilRun "sentinel2" 210 5 25 (fun _ _ => none) =
      .error "Unsupported sensor configuration" :=
  unsupported_sensor_aborts "sentinel2" (by simp [supportedSensors]) 210 5 25
    (fun _ _ => none)

/-! ## Theorem for the soil-curve preprocessing (C8) -/

/-- C8: when the soil file's unit tag is `Nanometers` the wavelength axis
handed to the atmospheric model is the (water-band-filtered) band centers
divided by 1000; and per the spec's contract for `aei.readJFSC`, an
unrecognized unit tag fails with a FormatError instead of proceeding with
an unconverted axis. -/
theorem soil_unit_handling (f g : SoilFile)
    (hn : f.band_unit = "Nanometers") (hg1 : g.band_unit ≠ "Nanometers")
    (hg2 : g.band_unit ≠ "Micrometers") :
    soilPreprocess f = .ok
      (((removeWaterBands f).bands.map fun b => b.1 / 1000).zip
        ((removeWaterBands f).bands.map fun b => b.2.1)) ∧
    soilPreprocess g = .error "FormatError" := by
  constructor
  · rw [soilPreprocess.eq_def, readJFSC, if_pos (Or.inl hn)]
    simp [hn]
  · rw [soilPreprocess.eq_def, readJFSC,
      if_neg (by rw [not_or]; exact ⟨hg1, hg2⟩)]

/-- C8 witness: a nanometer-tagged file converts (1000 nm becomes 1 μm,
the flagged water band dropped) and an unrecognized tag fails. -/
theorem soil_unit_handling_witness :
    soilPreprocess nanoSoilFile = .ok
      (((removeWaterBands nanoSoilFile).bands.map fun b => b.1 / 1000).zip
        ((removeWaterBands nanoSoilFile).bands.map fun b => b.2.1)) ∧
    soilPreprocess badUnitSoilFile = .error "FormatError" :=
  soil_unit_handling nanoSoilFile badUnitSoilFile rfl
    (by simp [badUnitSoilFile]) (by simp [badUnitSoilFile])

/-! ## Theorem for the all-or-nothing artifact write (C9) -/

/-- C9: both drivers assemble and write the `.csv`, `.sli` and `.hdr`
artifacts only after the full simulation loop; if any single model
invocation raises, the run aborts with no artifact produced — `none` for
the vegetation driver, the simulation error for the soil driver. -/
theorem no_artifacts_on_model_failure (nb n : ℕ)
    (prosail : ProsailCall → Option (ℕ → ℚ × ℚ)) (p : VegSamples) (j : ℕ)
    (hj : j < n) (hfail : prosail (vegProsailCall p n j) = none)
    (sensor : String) (wl_len n_a n_b : ℕ) (cfg : ℕ × List ℕ)
    (hcfg : sensorConfig sensor wl_len = .ok cfg)
    (smodel : ℕ → ℕ → Option ((ℕ → ℚ) × (ℕ → ℚ))) (i j2 : ℕ)
    (hi : i < n_a) (hj2 : j2 < n_b) (hsfail : smodel i j2 = none) :
    vegRun nb n prosail p = none ∧
    soilRun sensor wl_len n_a n_b smodel = .error "SimulationError" := by
  constructor
  · have hcond : ¬((List.range n).all
        (fun j => (prosail (vegProsailCall p n j)).isSome)) = true := by
      intro hall
      have hs := List.all_eq_true.mp hall j (List.mem_range.mpr hj)
      rw [hfail] at hs
      simp at hs
    unfold vegRun
    rw [if_neg hcond]
  · have hcond : ¬((List.range n_a).all fun i =>
        (List.range n_b).all fun j => (smodel i j).isSome) = true := by
      intro hall
      have ha := List.all_eq_true.mp hall i (List.mem_range.mpr hi)
      have hb := List.all_eq_true.mp ha j2 (List.mem_range.mpr hj2)
      rw [hsfail] at hb
      simp at hb
    rw [soilRun.eq_def, hcfg]
    exact if_neg hcond

/-- C9 witness: a model that raises on its first invocation yields no
artifacts in either driver. -/
theorem no_artifacts_on_model_failure_witness :
    vegRun 5 1 (fun _ => none) twoBundleSamples = none ∧
    soilRun "landsat_oli" 210 5 25 (fun _ _ => none) =
      .error "SimulationError" :=
  no_artifacts_on_model_failure 5 1 (fun _ => none) twoBundleSamples 0
    (by norm_num) rfl "landsat_oli" 210 5 25
    (10, (List.range 6).map (· + 1)) (by simp [sensorConfig])
    (fun _ _ => none) 0 0 (by norm_num) (by norm_num) rfl
